import Mathlib

/-!
Shallow embedding of the energy-telemetry backend (Express + MQTT + Mongoose).

The repository contains several near-duplicate server variants. The embedding
below follows the canonical ingestion variant in src/unnamed/part_002
(explicit rejection of an unparsable timestamp, windowed query with limit 200,
full-history query with limit 50, gas alert tiers), together with the
full-history query of src/server.js (limit 2000) and the Joi-validated
POST /energy handler, which is identical in src/server.js and
src/unnamed/part_002.

Modelling conventions:
- JavaScript numbers are modelled as rationals; times (Date.now, getTime) as
  integers counting milliseconds.
- A field that may be absent from a JSON payload is an Option.
- The result of new Date(x) for a present payload timestamp is modelled by
  TsField: either a valid instant or an invalid date, encoding whether the
  external date parser accepts the value.
- MongoDB storage is a list of records in insertion order plus a flag that
  models a failing write; the storage-assigned insertion sequence (ObjectId
  order) is modelled by the seq field.
- The Mongo sort on timestamp descending is modelled as a stable insertion
  sort, and limit(n) as List.take n.
-/

namespace EnergyBackend

/-- Model of the value new Date(x) produces for a present timestamp field of
the payload: a valid instant in milliseconds, or an invalid date (isNaN on
getTime), from src/unnamed/part_002 lines 67 and 68. -/
inductive TsField where
  | valid (t : ℤ)
  | invalid
  deriving DecidableEq

/-- Parsed JSON payload of one MQTT message: the nine recognised sensor
fields and the optional timestamp field, per the Mongoose schema in
src/unnamed/part_002 lines 40 to 53. -/
structure RawData where
  temperature : Option ℚ
  humidity : Option ℚ
  voltage : Option ℚ
  current_20A : Option ℚ
  current_30A : Option ℚ
  sct013 : Option ℚ
  waterFlow : Option ℚ
  gasDetected : Option ℚ
  level : Option ℚ
  timestamp : Option TsField
  deriving DecidableEq

/-- Errors of the ingestion path, per the catch clause of the MQTT message
handler in src/unnamed/part_002 lines 64 to 85. -/
inductive PipelineError where
  | parseError
  | invalidTimestamp
  | storageError
  deriving DecidableEq

/-- One stored record, per the Mongoose schema: raw fields, the derived
puissance and delayMs (absent for manual inserts), the stored timestamp and
the storage-assigned insertion sequence seq. -/
structure StoredSample where
  seq : ℕ
  temperature : Option ℚ
  humidity : Option ℚ
  voltage : Option ℚ
  current_20A : Option ℚ
  current_30A : Option ℚ
  sct013 : Option ℚ
  waterFlow : Option ℚ
  gasDetected : Option ℚ
  level : Option ℚ
  puissance : Option ℚ
  delayMs : Option ℤ
  timestamp : ℤ
  deriving DecidableEq

/-- Output of the pure derivation step of the MQTT handler. -/
structure Derived where
  puissance : ℚ
  delayMs : ℤ
  resolvedTimestamp : ℤ
  deriving DecidableEq

/-- Resolution of the payload timestamp, from src/unnamed/part_002 lines 67
and 68: new Date(data.timestamp ?? Date.now()), then throw when
isNaN(timestamp.getTime()). -/
def resolveTimestamp : Option TsField → ℤ → Except PipelineError ℤ
  | none, now => .ok now
  | some (.valid t), _ => .ok t
  | some .invalid, _ => .error .invalidTimestamp

/-- Derived power, from src/unnamed/part_002 line 71:
(data.sct013 ?? 0) * (data.voltage ?? 0). -/
def derivePuissance (raw : RawData) : ℚ :=
  (raw.sct013.getD 0) * (raw.voltage.getD 0)

/-- Pure derivation from a raw payload and the ingestion clock value, from
src/unnamed/part_002 lines 67 to 71: resolve the timestamp, compute
delayMs = Date.now() - timestamp.getTime() and the power product. -/
def derive (raw : RawData) (now : ℤ) : Except PipelineError Derived :=
  match resolveTimestamp raw.timestamp now with
  | .error e => .error e
  | .ok ts => .ok ⟨derivePuissance raw, now - ts, ts⟩

/-- Record built by new EnergyModel with the spread of the payload plus the
derived fields, src/unnamed/part_002 lines 73 to 78. -/
def mkEntry (seq : ℕ) (raw : RawData) (d : Derived) : StoredSample :=
  { seq := seq
    temperature := raw.temperature
    humidity := raw.humidity
    voltage := raw.voltage
    current_20A := raw.current_20A
    current_30A := raw.current_30A
    sct013 := raw.sct013
    waterFlow := raw.waterFlow
    gasDetected := raw.gasDetected
    level := raw.level
    puissance := some d.puissance
    delayMs := some d.delayMs
    timestamp := d.resolvedTimestamp }

/-- MongoDB collection state: the records in insertion order, plus a flag
modelling a storage layer whose save operation rejects. -/
structure Store where
  samples : List StoredSample
  writeFails : Bool
  deriving DecidableEq

/-- Model of newEntry.save(): fails when the storage layer fails, otherwise
appends the record. -/
def Store.save (st : Store) (s : StoredSample) : Except PipelineError Store :=
  if st.writeFails then .error .storageError
  else .ok { st with samples := st.samples ++ [s] }

/-- An inbound MQTT byte payload after the JSON.parse attempt: either
malformed bytes or a parsed object. -/
inductive Payload where
  | malformed
  | json (raw : RawData)
  deriving DecidableEq

/-- Terminal state of one message, per the spec state machine. -/
inductive MsgResult where
  | stored (s : StoredSample)
  | dropped (e : PipelineError)
  deriving DecidableEq

/-- Outcome of the handler on one message: resulting store, terminal result,
and how many storage save calls were attempted. -/
structure MsgOutcome where
  store : Store
  result : MsgResult
  saveAttempts : ℕ
  deriving DecidableEq

/-- The MQTT message handler of src/unnamed/part_002 lines 64 to 85: parse,
derive, save, with every failure caught and the message dropped. -/
def onMessage (p : Payload) (now : ℤ) (st : Store) : MsgOutcome :=
  match p with
  | .malformed => ⟨st, .dropped .parseError, 0⟩
  | .json raw =>
    match derive raw now with
    | .error e => ⟨st, .dropped e, 0⟩
    | .ok d =>
      match st.save (mkEntry st.samples.length raw d) with
      | .error e => ⟨st, .dropped e, 1⟩
      | .ok st2 => ⟨st2, .stored (mkEntry st.samples.length raw d), 1⟩

/-- Stable insertion of a record into a list sorted by timestamp descending:
the record moves past every strictly newer record and stops before the first
record that is not newer, so earlier-inserted records with an equal timestamp
stay in front. Models the Mongo sort step. -/
def insertDesc (x : StoredSample) : List StoredSample → List StoredSample
  | [] => [x]
  | t :: ts => if x.timestamp < t.timestamp then t :: insertDesc x ts else x :: t :: ts

/-- Model of sort with timestamp descending on a Mongo collection read in
insertion order: a stable insertion sort. -/
def sortByTimestampDesc : List StoredSample → List StoredSample
  | [] => []
  | x :: xs => insertDesc x (sortByTimestampDesc xs)

/-- Window predicate of the GET /energy handler of src/unnamed/part_002
lines 165 to 168: timestamp at or after now minus hours times one hour in
milliseconds (the Mongo gte filter). -/
def inWindow (now hours : ℤ) (s : StoredSample) : Bool :=
  decide (now - hours * 3600000 ≤ s.timestamp)

/-- The GET /energy handler of src/unnamed/part_002 lines 163 to 177:
find with the gte window filter, sort timestamp descending, limit 200. -/
def recentQuery (st : Store) (now hours : ℤ) : List StoredSample :=
  (sortByTimestampDesc (st.samples.filter (inWindow now hours))).take 200

/-- The GET /energy handler of src/server.js lines 155 to 162: find all,
sort timestamp descending, limit 2000. -/
def allQuery (st : Store) : List StoredSample :=
  (sortByTimestampDesc st.samples).take 2000

/-- The GET /energy/all handler of src/unnamed/part_002 lines 180 to 191:
find all, sort timestamp descending, limit 50. -/
def allQuery50 (st : Store) : List StoredSample :=
  (sortByTimestampDesc st.samples).take 50

/-- Model of findOne sorted by timestamp descending, src/unnamed/part_002
line 93: the newest stored record, if any. -/
def latestSample (st : Store) : Option StoredSample :=
  (sortByTimestampDesc st.samples).head?

/-- Names of fields a manual-insert request body may carry: the nine
recognised sensor fields, the three schema-only fields, and any other key. -/
inductive FieldName where
  | temperature
  | humidity
  | voltage
  | current_20A
  | current_30A
  | sct013
  | waterFlow
  | gasDetected
  | level
  | puissance
  | delayMs
  | timestamp
  | otherKey
  deriving DecidableEq

/-- Model of a JSON value in a request body: a number, a string, a boolean
or null. Joi number validation is modelled as accepting exactly numbers. -/
inductive JsVal where
  | num (q : ℚ)
  | strv
  | boolv
  | nullv
  deriving DecidableEq

/-- A request body: an association list of fields and values. -/
abbrev Body := List (FieldName × JsVal)

/-- The nine keys of the Joi schema of the POST /energy handler,
src/unnamed/part_002 lines 195 to 205. -/
def allowedFields : List FieldName :=
  [.temperature, .humidity, .voltage, .current_20A, .current_30A,
   .sct013, .waterFlow, .gasDetected, .level]

/-- Whether a JSON value passes Joi.number(). -/
def JsVal.isNum : JsVal → Bool
  | .num _ => true
  | _ => false

/-- Model of schema.validate(req.body) for the Joi object schema: every key
must be one of the nine declared keys (Joi objects reject unknown keys by
default) and every present value must pass Joi.number(). -/
def joiValidate (body : Body) : Bool :=
  body.all (fun kv => decide (kv.1 ∈ allowedFields) && kv.2.isNum)

/-- Numeric value of a field in the body, if present with a number. -/
def lookupNum (body : Body) (k : FieldName) : Option ℚ :=
  match body.lookup k with
  | some (.num q) => some q
  | _ => none

/-- HTTP statuses the POST /energy handler can answer with. -/
inductive HttpStatus where
  | created201
  | badRequest400
  | serverError500
  deriving DecidableEq

/-- Record built by new EnergyModel(req.body) on the manual insert path:
the schema fields are taken from the body, puissance and delayMs are left
unset, and timestamp takes its schema default, the insertion clock. -/
def manualEntry (seq : ℕ) (body : Body) (now : ℤ) : StoredSample :=
  { seq := seq
    temperature := lookupNum body .temperature
    humidity := lookupNum body .humidity
    voltage := lookupNum body .voltage
    current_20A := lookupNum body .current_20A
    current_30A := lookupNum body .current_30A
    sct013 := lookupNum body .sct013
    waterFlow := lookupNum body .waterFlow
    gasDetected := lookupNum body .gasDetected
    level := lookupNum body .level
    puissance := none
    delayMs := none
    timestamp := now }

/-- The POST /energy handler of src/unnamed/part_002 lines 194 to 217
(identical in src/server.js lines 164 to 187): validate with Joi, answer 400
expressly on a validation error with no write, otherwise save and answer 201,
or 500 when the save fails. -/
def postEnergy (body : Body) (now : ℤ) (st : Store) : Store × HttpStatus :=
  if joiValidate body then
    match st.save (manualEntry st.samples.length body now) with
    | .ok st2 => (st2, .created201)
    | .error _ => (st, .serverError500)
  else (st, .badRequest400)

/-- Gas alert tiers of the chatbot handler. -/
inductive GasTier where
  | safe
  | attention
  | danger
  deriving DecidableEq

/-- JavaScript greater-than against a possibly undefined value: a comparison
with undefined is false. -/
def jsGt : Option ℚ → ℚ → Bool
  | some g, c => decide (c < g)
  | none, _ => false

/-- Gas tier classification of the chatbot handler, src/unnamed/part_002
lines 116 to 122: danger above 3000, attention above 1000, safe otherwise. -/
def gasAlert (g : Option ℚ) : GasTier :=
  if jsGt g 3000 then .danger
  else if jsGt g 1000 then .attention
  else .safe

/-- Alert tier the chatbot grounding reports, computed from the latest
stored sample when one exists. -/
def chatbotAlert (st : Store) : Option GasTier :=
  (latestSample st).map (fun s => gasAlert s.gasDetected)

/-! Helper lemmas about the modelled Mongo sort. -/

theorem mem_insertDesc {x a : StoredSample} {l : List StoredSample} :
    a ∈ insertDesc x l ↔ a = x ∨ a ∈ l := by
  induction l with
  | nil => simp [insertDesc]
  | cons t ts ih =>
    simp only [insertDesc]
    split
    · simp only [List.mem_cons, ih]
      tauto
    · simp only [List.mem_cons]

theorem length_insertDesc (x : StoredSample) (l : List StoredSample) :
    (insertDesc x l).length = l.length + 1 := by
  induction l with
  | nil => rfl
  | cons t ts ih =>
    simp only [insertDesc]
    split
    · simp [ih]
    · simp

theorem pairwise_insertDesc {R : StoredSample → StoredSample → Prop}
    (hmono : ∀ a b, R a b → b.timestamp ≤ a.timestamp)
    {x : StoredSample} {l : List StoredSample}
    (hl : l.Pairwise R)
    (h1 : ∀ t ∈ l, x.timestamp < t.timestamp → R t x)
    (h2 : ∀ t ∈ l, t.timestamp ≤ x.timestamp → R x t) :
    (insertDesc x l).Pairwise R := by
  induction l with
  | nil => simp [insertDesc]
  | cons t ts ih =>
    rcases List.pairwise_cons.mp hl with ⟨hts, hpts⟩
    simp only [insertDesc]
    split
    · next hlt =>
      refine List.pairwise_cons.mpr ⟨?_, ?_⟩
      · intro b hb
        rcases mem_insertDesc.mp hb with rfl | hb
        · exact h1 t (List.mem_cons_self t ts) hlt
        · exact hts b hb
      · exact ih hpts (fun u hu => h1 u (List.mem_cons_of_mem t hu))
          (fun u hu => h2 u (List.mem_cons_of_mem t hu))
    · next hge =>
      push_neg at hge
      refine List.pairwise_cons.mpr ⟨?_, hl⟩
      intro b hb
      rcases List.mem_cons.mp hb with rfl | hb
      · exact h2 b (List.mem_cons_self b ts) hge
      · exact h2 b (List.mem_cons_of_mem t hb) (le_trans (hmono t b (hts b hb)) hge)

theorem mem_sortByTimestampDesc {a : StoredSample} :
    ∀ {l : List StoredSample}, a ∈ sortByTimestampDesc l ↔ a ∈ l := by
  intro l
  induction l with
  | nil => simp [sortByTimestampDesc]
  | cons x xs ih =>
    simp [sortByTimestampDesc, mem_insertDesc, ih]

theorem length_sortByTimestampDesc (l : List StoredSample) :
    (sortByTimestampDesc l).length = l.length := by
  induction l with
  | nil => rfl
  | cons x xs ih =>
    simp [sortByTimestampDesc, length_insertDesc, ih]

theorem sorted_sortByTimestampDesc (l : List StoredSample) :
    (sortByTimestampDesc l).Pairwise (fun a b => b.timestamp ≤ a.timestamp) := by
  induction l with
  | nil => simp [sortByTimestampDesc]
  | cons x xs ih =>
    exact pairwise_insertDesc (fun a b h => h) ih
      (fun t _ hlt => le_of_lt hlt)
      (fun t _ hle => hle)

theorem stable_sortByTimestampDesc {l : List StoredSample}
    (h : l.Pairwise (fun a b => a.seq < b.seq)) :
    (sortByTimestampDesc l).Pairwise
      (fun a b => b.timestamp < a.timestamp ∨
        (b.timestamp = a.timestamp ∧ a.seq < b.seq)) := by
  induction l with
  | nil => simp [sortByTimestampDesc]
  | cons x xs ih =>
    rcases List.pairwise_cons.mp h with ⟨hx, hxs⟩
    refine pairwise_insertDesc ?_ (ih hxs) ?_ ?_
    · rintro a b (hlt | ⟨heq, _⟩)
      · exact le_of_lt hlt
      · exact le_of_eq heq
    · intro t _ hlt
      exact Or.inl hlt
    · intro t ht hle
      rcases lt_or_eq_of_le hle with hlt | heq
      · exact Or.inl hlt
      · exact Or.inr ⟨heq, hx t (mem_sortByTimestampDesc.mp ht)⟩

/-! Claim theorems. -/

/-- C1: for every raw sample, the stored puissance is
(sct013 or 0) times (voltage or 0): the exact product when both fields are
present, 0 when either is absent; absence of either field never changes
whether derivation of the record succeeds. -/
theorem puissance_spec (raw : RawData) (now : ℤ) :
    (∀ a v, raw.sct013 = some a → raw.voltage = some v → derivePuissance raw = a * v) ∧
    ((raw.sct013 = none ∨ raw.voltage = none) → derivePuissance raw = 0) ∧
    (∀ st s, (onMessage (.json raw) now st).result = .stored s →
      s.puissance = some (derivePuissance raw)) ∧
    ((∃ d, derive raw now = .ok d) ↔
      (∃ d, derive { raw with sct013 := none, voltage := none } now = .ok d)) := by
  refine ⟨?_, ?_, ?_, ?_⟩
  · intro a v ha hv
    simp [derivePuissance, ha, hv]
  · rintro (h | h) <;> simp [derivePuissance, h]
  · intro st s hs
    rcases hd : derive raw now with e | d
    · simp [onMessage, hd] at hs
    · by_cases hw : st.writeFails
      · simp [onMessage, hd, Store.save, hw] at hs
      · simp only [onMessage, hd, Store.save, hw, if_false, Bool.false_eq_true] at hs
        cases hs
        rcases hts : resolveTimestamp raw.timestamp now with e | ts
        · simp [derive, hts] at hd
        · simp only [derive, hts] at hd
          cases hd
          rfl
  · have hts : ({ raw with sct013 := none, voltage := none } : RawData).timestamp
        = raw.timestamp := rfl
    constructor
    · rintro ⟨d, hd⟩
      rcases h : resolveTimestamp raw.timestamp now with e | ts
      · simp [derive, h] at hd
      · exact ⟨⟨derivePuissance { raw with sct013 := none, voltage := none }, now - ts, ts⟩,
          by simp [derive, hts, h]⟩
    · rintro ⟨d, hd⟩
      rcases h : resolveTimestamp raw.timestamp now with e | ts
      · simp [derive, hts, h] at hd
      · exact ⟨⟨derivePuissance raw, now - ts, ts⟩, by simp [derive, h]⟩

/-- Witness for C1 at a concrete sample: sct013 of 10 and voltage of 220
derive a puissance of 2200. -/
theorem puissance_spec_witness :
    derivePuissance ⟨none, none, some 220, none, none, some 10, none, none, none, none⟩
      = 10 * 220 :=
  (puissance_spec ⟨none, none, some 220, none, none, some 10, none, none, none, none⟩ 0).1
    10 220 rfl rfl

/-- C2: an absent payload timestamp resolves to the ingestion clock, a
present parsable one to its parsed value, and a present unparsable one drops
the message with no storage write. -/
theorem resolved_timestamp_spec (raw : RawData) (now : ℤ) (st : Store) :
    (raw.timestamp = none →
      ∃ d, derive raw now = .ok d ∧ d.resolvedTimestamp = now) ∧
    (∀ t, raw.timestamp = some (.valid t) →
      ∃ d, derive raw now = .ok d ∧ d.resolvedTimestamp = t) ∧
    (raw.timestamp = some .invalid →
      (onMessage (.json raw) now st).store = st ∧
      (onMessage (.json raw) now st).result = .dropped .invalidTimestamp ∧
      (onMessage (.json raw) now st).saveAttempts = 0) := by
  refine ⟨?_, ?_, ?_⟩
  · intro h
    exact ⟨⟨derivePuissance raw, now - now, now⟩,
      by simp [derive, resolveTimestamp, h], rfl⟩
  · intro t h
    exact ⟨⟨derivePuissance raw, now - t, t⟩,
      by simp [derive, resolveTimestamp, h], rfl⟩
  · intro h
    have hd : derive raw now = .error .invalidTimestamp := by
      simp [derive, resolveTimestamp, h]
    exact ⟨by simp [onMessage, hd], by simp [onMessage, hd], by simp [onMessage, hd]⟩

/-- Witness for C2 at concrete inputs: with an empty store and clock 77, an
absent timestamp resolves to 77. -/
theorem resolved_timestamp_spec_witness :
    ∃ d, derive ⟨none, none, none, none, none, none, none, none, none, none⟩ 77 = .ok d ∧
      d.resolvedTimestamp = 77 :=
  (resolved_timestamp_spec ⟨none, none, none, none, none, none, none, none, none, none⟩
    77 ⟨[], false⟩).1 rfl

/-- C3: the message handler is total and, on every input, either stores
exactly one record (one save attempt, store extended by that record) or
drops the message leaving the store unchanged, with no save attempt at all
when the drop happens before the store step. -/
theorem onMessage_spec (p : Payload) (now : ℤ) (st : Store) :
    (∃ s, (onMessage p now st).result = .stored s ∧
      (onMessage p now st).store.samples = st.samples ++ [s] ∧
      (onMessage p now st).store.writeFails = st.writeFails ∧
      (onMessage p now st).saveAttempts = 1) ∨
    (∃ e, (onMessage p now st).result = .dropped e ∧
      (onMessage p now st).store = st ∧
      ((e = .parseError ∨ e = .invalidTimestamp) →
        (onMessage p now st).saveAttempts = 0)) := by
  cases p with
  | malformed =>
    exact Or.inr ⟨.parseError, rfl, rfl, fun _ => rfl⟩
  | json raw =>
    rcases hd : derive raw now with e | d
    · exact Or.inr ⟨e, by simp [onMessage, hd], by simp [onMessage, hd],
        fun _ => by simp [onMessage, hd]⟩
    · by_cases hw : st.writeFails
      · refine Or.inr ⟨.storageError, by simp [onMessage, hd, Store.save, hw],
          by simp [onMessage, hd, Store.save, hw], ?_⟩
        rintro (h | h) <;> cases h
      · exact Or.inl ⟨mkEntry st.samples.length raw d,
          by simp [onMessage, hd, Store.save, hw],
          by simp [onMessage, hd, Store.save, hw],
          by simp [onMessage, hd, Store.save, hw],
          by simp [onMessage, hd, Store.save, hw]⟩

/-- Witness for C3 at a concrete input: a malformed payload against an empty
store falls in one of the two terminal cases. -/
theorem onMessage_spec_witness :
    (∃ s, (onMessage .malformed 0 ⟨[], false⟩).result = .stored s ∧
      (onMessage .malformed 0 ⟨[], false⟩).store.samples = [] ++ [s] ∧
      (onMessage .malformed 0 ⟨[], false⟩).store.writeFails = false ∧
      (onMessage .malformed 0 ⟨[], false⟩).saveAttempts = 1) ∨
    (∃ e, (onMessage .malformed 0 ⟨[], false⟩).result = .dropped e ∧
      (onMessage .malformed 0 ⟨[], false⟩).store = ⟨[], false⟩ ∧
      ((e = .parseError ∨ e = .invalidTimestamp) →
        (onMessage .malformed 0 ⟨[], false⟩).saveAttempts = 0)) :=
  onMessage_spec .malformed 0 ⟨[], false⟩

/-- C4: the derived delayMs is exactly the ingestion clock minus the
resolved timestamp, stored unclamped, so it is negative whenever the device
clock is ahead of the server clock. -/
theorem delay_ms_spec (raw : RawData) (now ts : ℤ)
    (h : resolveTimestamp raw.timestamp now = .ok ts) :
    (∃ d, derive raw now = .ok d ∧ d.delayMs = now - ts) ∧
    (∀ st s, (onMessage (.json raw) now st).result = .stored s →
      s.delayMs = some (now - ts)) := by
  have hd : derive raw now = .ok ⟨derivePuissance raw, now - ts, ts⟩ := by
    simp [derive, h]
  refine ⟨⟨_, hd, rfl⟩, ?_⟩
  intro st s hs
  by_cases hw : st.writeFails
  · simp [onMessage, hd, Store.save, hw] at hs
  · simp only [onMessage, hd, Store.save, hw, if_false, Bool.false_eq_true] at hs
    cases hs
    rfl

/-- Witness for C4 at a concrete input: a device timestamp of 5000 against a
server clock of 0 yields a delayMs of minus 5000, not clamped to zero. -/
theorem delay_ms_spec_witness :
    ∃ d, derive ⟨none, none, none, none, none, none, none, none, none,
        some (.valid 5000)⟩ 0 = .ok d ∧ d.delayMs = 0 - 5000 :=
  (delay_ms_spec ⟨none, none, none, none, none, none, none, none, none,
    some (.valid 5000)⟩ 0 5000 rfl).1

/-- C8: derivation is deterministic: two runs on the same raw input with the
same frozen clock produce the same output. -/
theorem derive_deterministic (raw : RawData) (now : ℤ)
    (o₁ o₂ : Except PipelineError Derived)
    (h₁ : derive raw now = o₁) (h₂ : derive raw now = o₂) : o₁ = o₂ :=
  h₁ ▸ h₂ ▸ rfl

/-- Witness for C8 at a concrete input. -/
theorem derive_deterministic_witness :
    derive ⟨none, none, some 220, none, none, some 10, none, none, none, none⟩ 9 =
      derive ⟨none, none, some 220, none, none, some 10, none, none, none, none⟩ 9 :=
  derive_deterministic ⟨none, none, some 220, none, none, some 10, none, none, none, none⟩
    9 _ _ rfl rfl

/-- Record with a given insertion sequence, every sensor field absent and
timestamp zero: used to instantiate the query claims on concrete stores. -/
def blankSample (i : ℕ) : StoredSample :=
  ⟨i, none, none, none, none, none, none, none, none, none, none, none, 0⟩

/-- Concrete store holding 201 records that all satisfy a one hour window
around clock zero. -/
def bigStore : Store :=
  ⟨(List.range 201).map blankSample, false⟩

set_option maxRecDepth 100000 in
/-- C5 counterexample: with 201 stored in-window samples, the record of
sequence 200 is stored, inside the window, and yet absent from the result of
the one hour query, so the query does not return exactly the in-window
samples. -/
theorem recent_window_counterexample :
    blankSample 200 ∈ bigStore.samples ∧
    inWindow 0 1 (blankSample 200) = true ∧
    blankSample 200 ∉ recentQuery bigStore 0 1 := by decide

/-- C5 as amended: the one hour query returns only stored in-window samples,
returns all of them when at most 200 qualify, and is ordered by timestamp
descending with ties between equal timestamps in insertion order; when more
than 200 qualify, the excess is omitted (see the cap theorem). -/
theorem recent_query_spec (st : Store) (now : ℤ)
    (hseq : st.samples.Pairwise (fun a b => a.seq < b.seq)) :
    (∀ s ∈ recentQuery st now 1, s ∈ st.samples ∧ inWindow now 1 s = true) ∧
    ((st.samples.filter (inWindow now 1)).length ≤ 200 →
      ∀ s, s ∈ recentQuery st now 1 ↔ s ∈ st.samples ∧ inWindow now 1 s = true) ∧
    (recentQuery st now 1).Pairwise
      (fun a b => b.timestamp < a.timestamp ∨
        (b.timestamp = a.timestamp ∧ a.seq < b.seq)) := by
  refine ⟨?_, ?_, ?_⟩
  · intro s hs
    have hmem := List.take_subset _ _ hs
    rw [mem_sortByTimestampDesc] at hmem
    exact List.mem_filter.mp hmem
  · intro hlen s
    have hlen2 : (sortByTimestampDesc (st.samples.filter (inWindow now 1))).length ≤ 200 := by
      rw [length_sortByTimestampDesc]
      exact hlen
    rw [recentQuery, List.take_of_length_le hlen2, mem_sortByTimestampDesc, List.mem_filter]
  · exact (stable_sortByTimestampDesc (hseq.filter _)).sublist (List.take_sublist _ _)

/-- Witness for C5 at a concrete store of two records with equal timestamps:
the query result is pairwise ordered with the insertion tie-break. -/
theorem recent_query_spec_witness :
    (recentQuery ⟨[blankSample 0, blankSample 1], false⟩ 0 1).Pairwise
      (fun a b => b.timestamp < a.timestamp ∨
        (b.timestamp = a.timestamp ∧ a.seq < b.seq)) :=
  (recent_query_spec ⟨[blankSample 0, blankSample 1], false⟩ 0 (by decide)).2.2

/-- C10: every read is truncated at its fixed cap, 200 for the windowed
query, 2000 for the full history of the server.js variant and 50 for the
energy/all variant, and every result is ordered newest first, so in-range
samples beyond the cap are omitted. -/
theorem query_caps_spec (st : Store) (now : ℤ) :
    (recentQuery st now 1).length = min 200 (st.samples.filter (inWindow now 1)).length ∧
    (allQuery st).length = min 2000 st.samples.length ∧
    (allQuery50 st).length = min 50 st.samples.length ∧
    (recentQuery st now 1).Pairwise (fun a b => b.timestamp ≤ a.timestamp) ∧
    (allQuery st).Pairwise (fun a b => b.timestamp ≤ a.timestamp) ∧
    (allQuery50 st).Pairwise (fun a b => b.timestamp ≤ a.timestamp) := by
  refine ⟨?_, ?_, ?_, ?_, ?_, ?_⟩
  · rw [recentQuery, List.length_take, length_sortByTimestampDesc]
  · rw [allQuery, List.length_take, length_sortByTimestampDesc]
  · rw [allQuery50, List.length_take, length_sortByTimestampDesc]
  · exact (sorted_sortByTimestampDesc _).sublist (List.take_sublist _ _)
  · exact (sorted_sortByTimestampDesc _).sublist (List.take_sublist _ _)
  · exact (sorted_sortByTimestampDesc _).sublist (List.take_sublist _ _)

/-- C6: the manual insert path answers 400 with no storage write when any
present field is non-numeric or the validation fails, and on success appends
exactly the passthrough record whose puissance and delayMs are unset and
whose schema fields come straight from the body. -/
theorem manual_insert_spec (body : Body) (now : ℤ) (st : Store) :
    (∀ k v, (k, v) ∈ body → v.isNum = false →
      postEnergy body now st = (st, .badRequest400)) ∧
    (joiValidate body = false → postEnergy body now st = (st, .badRequest400)) ∧
    (joiValidate body = true → st.writeFails = false →
      postEnergy body now st =
        ({ st with samples := st.samples ++ [manualEntry st.samples.length body now] },
          .created201) ∧
      (manualEntry st.samples.length body now).puissance = none ∧
      (manualEntry st.samples.length body now).delayMs = none ∧
      (manualEntry st.samples.length body now).temperature = lookupNum body .temperature ∧
      (manualEntry st.samples.length body now).humidity = lookupNum body .humidity ∧
      (manualEntry st.samples.length body now).voltage = lookupNum body .voltage ∧
      (manualEntry st.samples.length body now).current_20A = lookupNum body .current_20A ∧
      (manualEntry st.samples.length body now).current_30A = lookupNum body .current_30A ∧
      (manualEntry st.samples.length body now).sct013 = lookupNum body .sct013 ∧
      (manualEntry st.samples.length body now).waterFlow = lookupNum body .waterFlow ∧
      (manualEntry st.samples.length body now).gasDetected = lookupNum body .gasDetected ∧
      (manualEntry st.samples.length body now).level = lookupNum body .level ∧
      (manualEntry st.samples.length body now).timestamp = now) := by
  have hdrop : ∀ k v, (k, v) ∈ body → v.isNum = false → joiValidate body = false := by
    intro k v hmem hnum
    cases hj : joiValidate body with
    | false => rfl
    | true =>
      have hall := List.all_eq_true.mp hj (k, v) hmem
      rw [Bool.and_eq_true] at hall
      have h2 := hall.2
      simp only [hnum] at h2
      exact absurd h2 (by simp)
  refine ⟨?_, ?_, ?_⟩
  · intro k v hmem hnum
    simp [postEnergy, hdrop k v hmem hnum]
  · intro h
    simp [postEnergy, h]
  · intro hv hw
    exact ⟨by simp [postEnergy, hv, Store.save, hw], rfl, rfl, rfl, rfl, rfl, rfl,
      rfl, rfl, rfl, rfl, rfl, rfl⟩

/-- Witness for C6 at a concrete request: a body whose temperature field is
a string is rejected with 400 and the store is untouched. -/
theorem manual_insert_spec_witness :
    postEnergy [(.temperature, JsVal.strv)] 0 ⟨[], false⟩ =
      (⟨[], false⟩, .badRequest400) :=
  (manual_insert_spec [(.temperature, JsVal.strv)] 0 ⟨[], false⟩).1
    .temperature .strv (by simp) rfl

/-- C7: the gas tier of the chatbot grounding is the safe tier at or below
1000, the attention tier above 1000 up to and including 3000, and the danger
tier above 3000; both boundary values fall in the lower-severity tier, and a
latest sample with a gas reading of 3500 is reported in the danger tier. -/
theorem gas_tier_spec (g : ℚ) :
    (g ≤ 1000 → gasAlert (some g) = .safe) ∧
    (1000 < g → g ≤ 3000 → gasAlert (some g) = .attention) ∧
    (3000 < g → gasAlert (some g) = .danger) ∧
    (∀ st s, latestSample st = some s → s.gasDetected = some 3500 →
      chatbotAlert st = some .danger) := by
  refine ⟨?_, ?_, ?_, ?_⟩
  · intro h
    have h3 : ¬ (3000 : ℚ) < g := by linarith
    have h1 : ¬ (1000 : ℚ) < g := by linarith
    simp [gasAlert, jsGt, h3, h1]
  · intro h1 h3
    have h3n : ¬ (3000 : ℚ) < g := by linarith
    simp [gasAlert, jsGt, h3n, h1]
  · intro h
    simp [gasAlert, jsGt, h]
  · intro st s hlatest hg
    have h35 : (3000 : ℚ) < 3500 := by norm_num
    simp [chatbotAlert, hlatest, gasAlert, jsGt, hg, h35]

/-- Witness for C7 at concrete readings: 500 is safe, 1000 is safe, 2000 is
attention, 3000 is attention, 3500 is danger. -/
theorem gas_tier_spec_witness :
    gasAlert (some 500) = .safe ∧
    gasAlert (some 1000) = .safe ∧
    gasAlert (some 2000) = .attention ∧
    gasAlert (some 3000) = .attention ∧
    gasAlert (some 3500) = .danger :=
  ⟨(gas_tier_spec 500).1 (by norm_num),
   (gas_tier_spec 1000).1 (by norm_num),
   (gas_tier_spec 2000).2.1 (by norm_num) (by norm_num),
   (gas_tier_spec 3000).2.1 (by norm_num) (by norm_num),
   (gas_tier_spec 3500).2.2.1 (by norm_num)⟩

/-- C9: a manual-insert request carrying any field outside the nine schema
keys is rejected with 400 and the store is untouched; in particular
puissance, delayMs and timestamp are not schema keys, so a manual caller can
never supply them. -/
theorem unknown_field_rejected (body : Body) (now : ℤ) (st : Store)
    (k : FieldName) (v : JsVal)
    (hmem : (k, v) ∈ body) (hk : k ∉ allowedFields) :
    postEnergy body now st = (st, .badRequest400) ∧
    FieldName.puissance ∉ allowedFields ∧
    FieldName.delayMs ∉ allowedFields ∧
    FieldName.timestamp ∉ allowedFields := by
  refine ⟨?_, by decide, by decide, by decide⟩
  have hfalse : joiValidate body = false := by
    cases hj : joiValidate body with
    | false => rfl
    | true =>
      have hall := List.all_eq_true.mp hj (k, v) hmem
      rw [Bool.and_eq_true] at hall
      exact absurd (of_decide_eq_true hall.1) hk
  simp [postEnergy, hfalse]

/-- Witness for C9 at a concrete request: a body supplying puissance, even
with a numeric value, is rejected with 400 and the store is untouched. -/
theorem unknown_field_rejected_witness :
    postEnergy [(.puissance, JsVal.num 5)] 0 ⟨[], false⟩ =
      (⟨[], false⟩, .badRequest400) ∧
    FieldName.puissance ∉ allowedFields ∧
    FieldName.delayMs ∉ allowedFields ∧
    FieldName.timestamp ∉ allowedFields :=
  unknown_field_rejected [(.puissance, JsVal.num 5)] 0 ⟨[], false⟩
    .puissance (.num 5) (by simp) (by decide)

end EnergyBackend
